import Mathlib

/-!
Verification of the JSON-RPC command-dispatch core declared in
`src/rpc/server.h` (CommerciumDirect).  The repository ships only the
header: the declarations of the warmup gate (`SetRPCWarmupStatus`,
`SetRPCWarmupFinished`, `RPCIsInWarmup`), the timer driver
(`RPCTimerInterface`, `RPCRunLater`), the command table (`CRPCTable`
with `operator[]`, `help`, `execute`, `appendCommand`), the lifecycle
signals (`RPCServer::OnPreCommand` / `OnPostCommand`) and the batch
executor (`JSONRPCExecBatch`).  The bodies of these functions live in a
`server.cpp` that is not part of the sources, so each operation below is
modelled from the specification's description of its behaviour, keeping
the header's names and signatures.
-/

/-- A parsed JSON value, as far as the dispatch core inspects it:
the core treats `id`, `params` and results as opaque values. -/
inductive UniValue where
  | null
  | bool (b : Bool)
  | num (n : Int)
  | str (s : String)
deriving DecidableEq, Repr

/-- Structured RPC error kinds raised at the dispatch boundary
(spec section 7: `MethodNotFound`, `StillWarmingUp` carrying the status
message, `ForbiddenInSafeMode`, `NoTimerDriver` reported as an internal
error, and opaque handler failures). -/
inductive RPCError where
  | methodNotFound
  | inWarmup (status : String)
  | forbiddenBySafeMode (warning : String)
  | internalError (msg : String)
  | invalidParams (msg : String)
  | handlerFailure (code : Int) (msg : String)
deriving DecidableEq, Repr

/-- `rpcfn_type`: a handler takes the params and the help flag and
either returns a result or signals a structured error value. -/
def rpcfn_type : Type := List UniValue → Bool → Except RPCError UniValue

/-- `CRPCCommand` from `server.h` lines 122-129: category, name,
handler function and the safe-mode flag. -/
structure CRPCCommand where
  category : String
  name : String
  actor : rpcfn_type
  okSafeMode : Bool

/-- Warmup state (spec section 4.2): either warming-up with a status
message or ready.  Modelled from the spec: the bodies of
`SetRPCWarmupStatus` / `SetRPCWarmupFinished` / `RPCIsInWarmup` are in
the missing `server.cpp`. -/
structure WarmupState where
  inWarmup : Bool
  status : String
deriving DecidableEq, Repr

/-- Modelled from the spec: `SetRPCWarmupStatus` updates the status
message shown while warming up; it does not change whether the node is
in warmup (spec 4.2: the message "may be updated repeatedly"). -/
def SetRPCWarmupStatus (w : WarmupState) (newStatus : String) : WarmupState :=
  { w with status := newStatus }

/-- Modelled from the spec: `SetRPCWarmupFinished` performs the one-way
transition to ready (spec 4.2: must not silently re-open the gate). -/
def SetRPCWarmupFinished (w : WarmupState) : WarmupState :=
  { w with inWarmup := false }

/-- Modelled from the spec: `RPCIsInWarmup` reads the (inWarmup, status)
pair. -/
def RPCIsInWarmup (w : WarmupState) : Bool × String :=
  (w.inWarmup, w.status)

/-- An opaque timer handle (`RPCTimerBase`): one scheduled callback.
Callbacks are identified by a numeric id so that firing can be counted. -/
structure TimerHandle where
  callback : Nat
  delaySeconds : Int
deriving DecidableEq, Repr

/-- One startup-sequencer / warmup-gate operation. -/
inductive WarmupOp where
  | setStatus (s : String)
  | setFinished
deriving DecidableEq, Repr

/-- Apply one warmup-gate operation. -/
def applyWarmupOp (w : WarmupState) : WarmupOp → WarmupState
  | .setStatus s => SetRPCWarmupStatus w s
  | .setFinished => SetRPCWarmupFinished w

/-- Observable events emitted during one `execute` call: each
pre-command / post-command subscriber firing (identified by its slot id,
carrying the resolved descriptor it receives) and each handler
invocation. -/
inductive Event where
  | preCommand (slot : Nat) (cmd : CRPCCommand)
  | postCommand (slot : Nat) (cmd : CRPCCommand)
  | handlerCall (method : String)

/-- The whole dispatcher state: the running flag, the warmup gate, the
embedding node's safe-mode condition, the command table
(`CRPCTable::mapCommands`, unique keys), the four signal-slot lists
(subscribers in attachment order) and the timer subsystem (registered
driver names and the named deadline-timer registry). -/
structure RPCState where
  running : Bool
  warmup : WarmupState
  safeModeWarning : String
  disableSafeMode : Bool
  table : List (String × CRPCCommand)
  startedSlots : List Nat
  stoppedSlots : List Nat
  preSlots : List Nat
  postSlots : List Nat
  timerDrivers : List String
  timers : List (String × TimerHandle)

/-- Modelled from the spec (safe-mode boundary, spec section 6): the
node is in restricted safe mode when it reports a warning and safe mode
has not been disabled. -/
def RPCState.safeModeRestricted (st : RPCState) : Bool :=
  decide (st.safeModeWarning ≠ "") && !st.disableSafeMode

/-- `IsRPCRunning` reads the running flag. -/
def IsRPCRunning (st : RPCState) : Bool :=
  st.running

/-- Modelled from the spec: `StartRPC` performs the one-way transition
to running and fires the on-started slots. -/
def StartRPC (st : RPCState) : List Event × RPCState :=
  ([], { st with running := true })

/-- `CRPCTable::operator[]` (server.h line 140): look the name up in
`mapCommands`, null (`none`) when absent.  Read-only (declared const). -/
def CRPCTable.get (table : List (String × CRPCCommand)) (name : String) :
    Option CRPCCommand :=
  table.lookup name

/-- `CRPCTable::appendCommand` (server.h lines 153-158): returns false
if the RPC server is already running, returns false when the name is
already present (commands cannot be overwritten), otherwise inserts the
binding.  Modelled from the spec and the header's doc comment. -/
def CRPCTable.appendCommand (st : RPCState) (name : String)
    (pcmd : CRPCCommand) : Bool × RPCState :=
  if IsRPCRunning st then
    (false, st)
  else if (CRPCTable.get st.table name).isSome then
    (false, st)
  else
    (true, { st with table := st.table ++ [(name, pcmd)] })

/-- `CRPCTable::execute` (server.h lines 143-150), modelled from the
spec (section 4.1): consult the warmup gate first; resolve the method
via lookup, signalling `MethodNotFound` when absent; refuse with
`ForbiddenInSafeMode` before any hook fires when the node is in
restricted safe mode and the descriptor is not safe-mode-allowed; then
fire the pre-command slots in attachment order with the resolved
descriptor, invoke the handler, fire the post-command slots, and return
the handler's result or its structured error.  The returned trace lists
the observable hook firings and handler invocations; errors are values
of `Except RPCError UniValue`, never a crash of the dispatcher. -/
def CRPCTable.execute (st : RPCState) (method : String)
    (params : List UniValue) : Except RPCError UniValue × List Event :=
  if (RPCIsInWarmup st.warmup).1 then
    (.error (.inWarmup st.warmup.status), [])
  else
    match CRPCTable.get st.table method with
    | none => (.error .methodNotFound, [])
    | some pcmd =>
      if st.safeModeRestricted && !pcmd.okSafeMode then
        (.error (.forbiddenBySafeMode st.safeModeWarning), [])
      else
        (pcmd.actor params false,
          st.preSlots.map (fun s => Event.preCommand s pcmd)
            ++ [Event.handlerCall method]
            ++ st.postSlots.map (fun s => Event.postCommand s pcmd))

/-- Whether an event is a handler invocation of `method`. -/
def isHandlerCallOf (method : String) : Event → Bool
  | .handlerCall m => m == method
  | _ => false

/-- Number of handler invocations of `method` recorded in a trace. -/
def handlerCalls (tr : List Event) (method : String) : Nat :=
  tr.countP (isHandlerCallOf method)

/-- `CRPCTable::help` (server.h line 141), modelled from the spec
(section 4.1): with an empty name, concatenate a per-command summary
line for every registered command; with a given name, resolve it and
invoke the handler itself in help-query mode (help flag set) so the
handler is the single source of truth for its usage text.  Read-only
(declared const). -/
def CRPCTable.help (st : RPCState) (name : String) : String :=
  if name = "" then
    String.join (st.table.map (fun p => p.2.category ++ " " ++ p.2.name ++ "\n"))
  else
    match CRPCTable.get st.table name with
    | none => "help: unknown command: " ++ name
    | some pcmd =>
      match pcmd.actor [] true with
      | .ok (.str s) => s
      | .ok _ => ""
      | .error _ => ""

/-- `RPCRegisterTimerInterface`, modelled from the spec: registers the
concrete timer driver by name. -/
def RPCRegisterTimerInterface (st : RPCState) (ifaceName : String) : RPCState :=
  { st with timerDrivers := st.timerDrivers ++ [ifaceName] }

/-- `RPCUnregisterTimerInterface`, modelled from the spec: removes the
driver registration. -/
def RPCUnregisterTimerInterface (st : RPCState) (ifaceName : String) : RPCState :=
  { st with timerDrivers := st.timerDrivers.filter (fun n => n ≠ ifaceName) }

/-- `RPCRunLater` (server.h lines 114-118), modelled from the spec
(section 4.3): fail with `NoTimerDriver` when no driver is registered;
otherwise destroy any existing handle registered under `name`
(cancelling its pending callback — the deadline-timer registry is keyed
by name with unique keys) and create the new handle for `func` in its
place, so at most one handle is ever live under a given name. -/
def RPCRunLater (st : RPCState) (name : String) (func : Nat)
    (nSeconds : Int) : Except RPCError Unit × RPCState :=
  if st.timerDrivers.isEmpty then
    (.error (.internalError "No timer handler registered for RPC"), st)
  else
    (.ok (),
      { st with timers :=
          st.timers.filter (fun p => p.1 ≠ name) ++ [(name, ⟨func, nSeconds⟩)] })

/-- The callbacks still pending in the named-timer registry: a callback
fires (exactly once, when its delay elapses) iff its handle is live;
destroying a handle cancels its callback. -/
def liveCallbacks (st : RPCState) : List Nat :=
  st.timers.map (fun p => p.2.callback)

/-- `JSONRequest` (server.h lines 37-46): id, method and params of one
parsed call. -/
structure JSONRequest where
  id : UniValue
  strMethod : String
  params : List UniValue
deriving Repr

/-- One JSON-RPC response object: exactly one of `result` / `error`
populated, tagged with the originating request's id. -/
structure JSONResponse where
  result : Option UniValue
  error : Option RPCError
  id : UniValue
deriving Repr

/-- One entry of a batch, modelled from the spec (section 4.5 and the
batch loop behind `JSONRPCExecBatch`): execute the request and wrap the
outcome — success payload or structured error — in a reply object
carrying the request's id; a failure never escapes the entry. -/
def JSONRPCExecOne (st : RPCState) (req : JSONRequest) : JSONResponse :=
  match (CRPCTable.execute st req.strMethod req.params).1 with
  | .ok r => ⟨some r, none, req.id⟩
  | .error e => ⟨none, some e, req.id⟩

/-- `JSONRPCExecBatch` (server.h line 217), modelled from the spec:
apply `JSONRPCExecOne` to each request in input order, collecting one
response per request. -/
def JSONRPCExecBatch (st : RPCState) (vReq : List JSONRequest) :
    List JSONResponse :=
  vReq.map (JSONRPCExecOne st)

/-- One read-side call on the command table: the three const member
functions of `CRPCTable` (server.h lines 140-150). -/
inductive ReadOp where
  | look (name : String)
  | helpFor (name : String)
  | exec (method : String) (params : List UniValue)

/-- Run one read-side call, returning the state it leaves behind.  All
three members are declared `const` in the header: each returns the
state unchanged. -/
def applyReadOp (st : RPCState) : ReadOp → RPCState
  | .look n => (fun _ => st) (CRPCTable.get st.table n)
  | .helpFor n => (fun _ => st) (CRPCTable.help st n)
  | .exec m p => (fun _ => st) (CRPCTable.execute st m p)

/-- Run a sequence of read-side calls. -/
def applyReadOps (st : RPCState) (ops : List ReadOp) : RPCState :=
  ops.foldl applyReadOp st

/-! ### Association-list lemmas shared by the proofs -/

theorem lookup_append_of_some {β : Type} (l₁ l₂ : List (String × β)) (a : String) (b : β)
    (h : l₁.lookup a = some b) : (l₁ ++ l₂).lookup a = some b := by
  induction l₁ with
  | nil => simp [List.lookup] at h
  | cons hd tl ih =>
    obtain ⟨k, v⟩ := hd
    simp only [List.cons_append, List.lookup_cons] at h ⊢
    cases hab : a == k with
    | true => simp only [hab] at h ⊢; exact h
    | false => simp only [hab] at h ⊢; exact ih h

theorem lookup_append_of_none {β : Type} (l₁ l₂ : List (String × β)) (a : String)
    (h : l₁.lookup a = none) : (l₁ ++ l₂).lookup a = l₂.lookup a := by
  induction l₁ with
  | nil => simp
  | cons hd tl ih =>
    obtain ⟨k, v⟩ := hd
    simp only [List.cons_append, List.lookup_cons] at h ⊢
    cases hab : a == k with
    | true => simp only [hab] at h; exact absurd h (by simp)
    | false => simp only [hab] at h ⊢; exact ih h

/-! ### Concrete fixtures used by the witnesses -/

/-- A handler that always succeeds. -/
def okActor : rpcfn_type := fun _ _ => .ok (.str "ok")

/-- A handler that always signals a structured handler failure. -/
def failActor : rpcfn_type := fun _ _ => .error (.handlerFailure (-1) "boom")

/-- A safe-mode-allowed sample command. -/
def getinfoCmd : CRPCCommand :=
  { category := "control", name := "getinfo", actor := okActor, okSafeMode := true }

/-- A sample command with `okSafeMode = false`. -/
def sendCmd : CRPCCommand :=
  { category := "wallet", name := "sendtoaddress", actor := okActor, okSafeMode := false }

/-- A sample command whose handler always fails. -/
def brokenCmd : CRPCCommand :=
  { category := "test", name := "broken", actor := failActor, okSafeMode := true }

/-- The dispatcher state at process start: not running, warming up,
no warnings, empty table, no subscribers, no timer driver. -/
def initState : RPCState :=
  { running := false
    warmup := { inWarmup := true, status := "Loading block index..." }
    safeModeWarning := ""
    disableSafeMode := false
    table := []
    startedSlots := []
    stoppedSlots := []
    preSlots := []
    postSlots := []
    timerDrivers := []
    timers := [] }

/-! ### C1: warmup gates every call -/

/-- C1: while the warmup state is warming-up, every `execute` call — for
every method name, registered or not — fails with `StillWarmingUp`
carrying exactly the current warmup status message and emits no events,
so the handler of the named command (if any) is never invoked. -/
theorem execute_during_warmup (st : RPCState) (method : String)
    (params : List UniValue) (h : st.warmup.inWarmup = true) :
    CRPCTable.execute st method params =
      (.error (.inWarmup st.warmup.status), [])
    ∧ handlerCalls (CRPCTable.execute st method params).2 method = 0 := by
  have he : CRPCTable.execute st method params =
      (.error (.inWarmup st.warmup.status), []) := by
    unfold CRPCTable.execute RPCIsInWarmup
    simp [h]
  exact ⟨he, by rw [he]; rfl⟩

/-- Witness for `execute_during_warmup`: a warming-up node with
`getinfo` registered still refuses the `getinfo` call itself. -/
theorem execute_during_warmup_witness :
    ({ initState with table := [("getinfo", getinfoCmd)] } : RPCState).warmup.inWarmup = true
    ∧ (CRPCTable.execute { initState with table := [("getinfo", getinfoCmd)] } "getinfo" [] =
        (.error (.inWarmup "Loading block index..."), [])
      ∧ handlerCalls (CRPCTable.execute
          { initState with table := [("getinfo", getinfoCmd)] } "getinfo" []).2 "getinfo" = 0) :=
  ⟨rfl, execute_during_warmup { initState with table := [("getinfo", getinfoCmd)] } "getinfo" [] rfl⟩

/-! ### C2: safe-mode refusal happens before any hook -/

/-- C2: when the node is in restricted safe mode and the resolved
descriptor has `okSafeMode = false`, `execute` fails with
`ForbiddenInSafeMode` and the event trace is empty: the handler is never
invoked and neither the pre-command nor the post-command hooks fire for
that attempt. -/
theorem execute_forbidden_in_safe_mode (st : RPCState) (method : String)
    (params : List UniValue) (pcmd : CRPCCommand)
    (hw : st.warmup.inWarmup = false)
    (hl : CRPCTable.get st.table method = some pcmd)
    (hs : st.safeModeRestricted = true)
    (ho : pcmd.okSafeMode = false) :
    CRPCTable.execute st method params =
      (.error (.forbiddenBySafeMode st.safeModeWarning), []) := by
  unfold CRPCTable.execute RPCIsInWarmup
  simp [hw, hl, hs, ho]

/-- Witness for `execute_forbidden_in_safe_mode`: a ready node with a
safe-mode warning refuses `sendtoaddress` (`okSafeMode = false`) with an
empty trace. -/
theorem execute_forbidden_in_safe_mode_witness :
    CRPCTable.execute
      { initState with
          warmup := { inWarmup := false, status := "" }
          safeModeWarning := "invalid chain"
          table := [("sendtoaddress", sendCmd)] }
      "sendtoaddress" [] =
      (.error (.forbiddenBySafeMode "invalid chain"), []) :=
  execute_forbidden_in_safe_mode
    { initState with
        warmup := { inWarmup := false, status := "" }
        safeModeWarning := "invalid chain"
        table := [("sendtoaddress", sendCmd)] }
    "sendtoaddress" [] sendCmd rfl rfl (by decide) rfl

/-! ### C3: failed registration leaves the registry untouched -/

/-- C3: every registration attempt that fails — because the server is
already running or because the name is already bound — returns false
(no exception: `appendCommand` is a total function) and returns the
state unchanged, so the registry keeps its size and its
name-to-descriptor contents, and the first descriptor bound under a
duplicated name is unaltered. -/
theorem appendCommand_fail_leaves_registry (st : RPCState) (name : String)
    (pcmd : CRPCCommand)
    (h : IsRPCRunning st = true ∨ (CRPCTable.get st.table name).isSome = true) :
    CRPCTable.appendCommand st name pcmd = (false, st) := by
  unfold CRPCTable.appendCommand
  rcases h with h | h
  · simp [h]
  · by_cases hr : IsRPCRunning st <;> simp [hr, h]

/-- Witness for `appendCommand_fail_leaves_registry`: re-registering
`getinfo` under a different descriptor fails and keeps the original
binding. -/
theorem appendCommand_fail_leaves_registry_witness :
    CRPCTable.appendCommand
      { initState with table := [("getinfo", getinfoCmd)] } "getinfo" sendCmd =
      (false, { initState with table := [("getinfo", getinfoCmd)] }) :=
  appendCommand_fail_leaves_registry
    { initState with table := [("getinfo", getinfoCmd)] } "getinfo" sendCmd
    (Or.inr rfl)

/-! ### Shape lemmas for the four outcomes of `execute` -/

theorem execute_warmup_shape (st : RPCState) (m : String) (p : List UniValue)
    (hw : st.warmup.inWarmup = true) :
    CRPCTable.execute st m p = (.error (.inWarmup st.warmup.status), []) := by
  unfold CRPCTable.execute RPCIsInWarmup
  simp [hw]

theorem execute_not_found_shape (st : RPCState) (m : String) (p : List UniValue)
    (hw : st.warmup.inWarmup = false)
    (hl : CRPCTable.get st.table m = none) :
    CRPCTable.execute st m p = (.error .methodNotFound, []) := by
  unfold CRPCTable.execute RPCIsInWarmup
  simp [hw, hl]

theorem execute_forbidden_shape (st : RPCState) (m : String) (p : List UniValue)
    (pcmd : CRPCCommand)
    (hw : st.warmup.inWarmup = false)
    (hl : CRPCTable.get st.table m = some pcmd)
    (hs : (st.safeModeRestricted && !pcmd.okSafeMode) = true) :
    CRPCTable.execute st m p = (.error (.forbiddenBySafeMode st.safeModeWarning), []) := by
  unfold CRPCTable.execute RPCIsInWarmup
  simp [hw, hl, hs]

theorem execute_resolved_shape (st : RPCState) (m : String) (p : List UniValue)
    (pcmd : CRPCCommand)
    (hw : st.warmup.inWarmup = false)
    (hl : CRPCTable.get st.table m = some pcmd)
    (hs : (st.safeModeRestricted && !pcmd.okSafeMode) = false) :
    CRPCTable.execute st m p =
      (pcmd.actor p false,
        st.preSlots.map (fun s => Event.preCommand s pcmd)
          ++ [Event.handlerCall m]
          ++ st.postSlots.map (fun s => Event.postCommand s pcmd)) := by
  unfold CRPCTable.execute RPCIsInWarmup
  simp [hw, hl, hs]

/-! ### C4: registrations made before the running-transition survive it -/

/-- A sequence of registration attempts applied in order. -/
def applyRegOps (st : RPCState) (ops : List (String × CRPCCommand)) : RPCState :=
  ops.foldl (fun s op => (CRPCTable.appendCommand s op.1 op.2).2) st

theorem get_appendCommand_preserved (st : RPCState) (n k : String)
    (pcmd q : CRPCCommand)
    (h : CRPCTable.get st.table n = some pcmd) :
    CRPCTable.get (CRPCTable.appendCommand st k q).2.table n = some pcmd := by
  unfold CRPCTable.appendCommand
  by_cases hr : IsRPCRunning st
  · simpa [hr] using h
  · by_cases hk : (CRPCTable.get st.table k).isSome
    · simpa [hr, hk] using h
    · have hnone : CRPCTable.get st.table k = none :=
        Option.not_isSome_iff_eq_none.mp hk
      rw [if_neg (by simpa using hr), if_neg (by simp [hnone])]
      exact lookup_append_of_some _ _ _ _ h

theorem get_applyRegOps_preserved (ops : List (String × CRPCCommand))
    (st : RPCState) (n : String) (pcmd : CRPCCommand)
    (h : CRPCTable.get st.table n = some pcmd) :
    CRPCTable.get (applyRegOps st ops).table n = some pcmd := by
  induction ops generalizing st with
  | nil => exact h
  | cons o t ih =>
    exact ih _ (get_appendCommand_preserved st n o.1 pcmd o.2 h)

/-- C4: when a registration succeeds before the running-transition, a
lookup performed after the transition — with any further registration
attempts in between — returns exactly the registered descriptor. -/
theorem lookup_after_start_returns_registered (st st' : RPCState)
    (name : String) (pcmd : CRPCCommand) (ops : List (String × CRPCCommand))
    (h : CRPCTable.appendCommand st name pcmd = (true, st')) :
    CRPCTable.get ((StartRPC (applyRegOps st' ops)).2).table name = some pcmd := by
  have h1 : CRPCTable.get st'.table name = some pcmd := by
    unfold CRPCTable.appendCommand at h
    by_cases hr : IsRPCRunning st
    · simp [hr] at h
    · by_cases hk : (CRPCTable.get st.table name).isSome
      · simp [hr, hk] at h
      · have hnone : CRPCTable.get st.table name = none :=
          Option.not_isSome_iff_eq_none.mp hk
        rw [if_neg (by simpa using hr), if_neg (by simp [hnone])] at h
        have hst : ({ st with table := st.table ++ [(name, pcmd)] } : RPCState) = st' :=
          congrArg Prod.snd h
        rw [← hst]
        show (st.table ++ [(name, pcmd)]).lookup name = some pcmd
        rw [lookup_append_of_none _ _ _ hnone]
        simp [List.lookup]
  have h2 : CRPCTable.get (applyRegOps st' ops).table name = some pcmd :=
    get_applyRegOps_preserved ops st' name pcmd h1
  exact h2

/-- Witness for `lookup_after_start_returns_registered`: `getinfo`
registered at startup is still resolved after the transition despite a
duplicate registration attempt and an unrelated one. -/
theorem lookup_after_start_returns_registered_witness :
    CRPCTable.get ((StartRPC (applyRegOps
        { initState with table := [("getinfo", getinfoCmd)] }
        [("getinfo", sendCmd), ("getbalance", sendCmd)])).2).table "getinfo" =
      some getinfoCmd :=
  lookup_after_start_returns_registered initState
    { initState with table := [("getinfo", getinfoCmd)] }
    "getinfo" getinfoCmd [("getinfo", sendCmd), ("getbalance", sendCmd)] rfl

/-! ### C5: MethodNotFound characterisation and handler-error containment -/

/-- A ready (post-warmup) dispatcher state with three registered
commands, no safe-mode warning, and hook subscribers 1,2 (pre) and
3 (post). -/
def readyState : RPCState :=
  { initState with
      running := true
      warmup := { inWarmup := false, status := "" }
      table := [("getinfo", getinfoCmd), ("broken", brokenCmd),
                ("sendtoaddress", sendCmd)]
      preSlots := [1, 2]
      postSlots := [3] }

/-- C5: out of warmup, `execute` signals `MethodNotFound` exactly when
the method name is absent from the registry (provided the handler itself
does not produce that error kind), and every error a handler signals is
returned at the dispatch boundary as a structured RPC error value —
`execute` is a total function into `Except RPCError UniValue`, so no
handler failure escapes the dispatcher. -/
theorem execute_methodNotFound_iff (st : RPCState) (m : String)
    (p : List UniValue)
    (hw : st.warmup.inWarmup = false)
    (hh : ∀ pcmd, CRPCTable.get st.table m = some pcmd →
        pcmd.actor p false ≠ .error .methodNotFound) :
    ((CRPCTable.execute st m p).1 = .error .methodNotFound ↔
        CRPCTable.get st.table m = none)
    ∧ (∀ pcmd e, CRPCTable.get st.table m = some pcmd →
        (st.safeModeRestricted && !pcmd.okSafeMode) = false →
        pcmd.actor p false = .error e →
        (CRPCTable.execute st m p).1 = .error e) := by
  constructor
  · constructor
    · intro hres
      cases hl : CRPCTable.get st.table m with
      | none => rfl
      | some pcmd =>
        exfalso
        by_cases hs : (st.safeModeRestricted && !pcmd.okSafeMode) = true
        · rw [execute_forbidden_shape st m p pcmd hw hl hs] at hres
          simp at hres
        · rw [execute_resolved_shape st m p pcmd hw hl
            (by simpa using hs)] at hres
          exact hh pcmd hl hres
    · intro hl
      rw [execute_not_found_shape st m p hw hl]
  · intro pcmd e hl hs ha
    rw [execute_resolved_shape st m p pcmd hw hl hs]
    exact ha

/-- Witness for `execute_methodNotFound_iff` on the ready state at the
registered method `broken`, whose handler always fails. -/
theorem execute_methodNotFound_iff_witness :
    (((CRPCTable.execute readyState "broken" []).1 = .error .methodNotFound) ↔
        CRPCTable.get readyState.table "broken" = none)
    ∧ (∀ pcmd e, CRPCTable.get readyState.table "broken" = some pcmd →
        (readyState.safeModeRestricted && !pcmd.okSafeMode) = false →
        pcmd.actor [] false = .error e →
        (CRPCTable.execute readyState "broken" []).1 = .error e) :=
  execute_methodNotFound_iff readyState "broken" [] rfl
    (by
      intro pcmd hl hc
      have hl2 : some brokenCmd = some pcmd := hl
      injection hl2 with he
      subst he
      simp [brokenCmd, failActor] at hc)

/-! ### C6: batch execution is pointwise and order-preserving -/

/-- C6: `executeBatch` returns one response per request in input order:
splitting the input anywhere as `pre ++ req :: post`, the output is the
batch over `pre`, then the response for `req`, then the batch over
`post`; the response for `req` is computed from `req` alone, carries the
originating request's id, and is exactly one of a success payload or a
structured error — so a failure of one request cannot abort or alter the
response of any other. -/
theorem execBatch_one_response_per_request (st : RPCState)
    (reqs pre post : List JSONRequest) (req : JSONRequest)
    (hsplit : reqs = pre ++ req :: post) :
    (JSONRPCExecBatch st reqs).length = reqs.length
    ∧ JSONRPCExecBatch st reqs =
        JSONRPCExecBatch st pre
          ++ JSONRPCExecOne st req :: JSONRPCExecBatch st post
    ∧ (JSONRPCExecOne st req).id = req.id
    ∧ (JSONRPCExecOne st req).result.isSome
        = !(JSONRPCExecOne st req).error.isSome := by
  subst hsplit
  refine ⟨by simp [JSONRPCExecBatch], by simp [JSONRPCExecBatch], ?_, ?_⟩
  · rcases hx : (CRPCTable.execute st req.strMethod req.params).1 with e | v <;>
      simp [JSONRPCExecOne, hx]
  · rcases hx : (CRPCTable.execute st req.strMethod req.params).1 with e | v <;>
      simp [JSONRPCExecOne, hx]

/-- Witness for `execBatch_one_response_per_request`: the batch
`[valid, unknown method, valid]` over the ready state, split at the
failing middle request. -/
theorem execBatch_one_response_per_request_witness :
    (JSONRPCExecBatch readyState
        [⟨.num 1, "getinfo", []⟩, ⟨.num 2, "nosuchmethod", []⟩,
          ⟨.num 3, "getinfo", []⟩]).length = 3
    ∧ JSONRPCExecBatch readyState
        [⟨.num 1, "getinfo", []⟩, ⟨.num 2, "nosuchmethod", []⟩,
          ⟨.num 3, "getinfo", []⟩] =
        JSONRPCExecBatch readyState [⟨.num 1, "getinfo", []⟩]
          ++ JSONRPCExecOne readyState ⟨.num 2, "nosuchmethod", []⟩
            :: JSONRPCExecBatch readyState [⟨.num 3, "getinfo", []⟩]
    ∧ (JSONRPCExecOne readyState ⟨.num 2, "nosuchmethod", []⟩).id = .num 2
    ∧ (JSONRPCExecOne readyState ⟨.num 2, "nosuchmethod", []⟩).result.isSome
        = !(JSONRPCExecOne readyState ⟨.num 2, "nosuchmethod", []⟩).error.isSome :=
  execBatch_one_response_per_request readyState
    [⟨.num 1, "getinfo", []⟩, ⟨.num 2, "nosuchmethod", []⟩, ⟨.num 3, "getinfo", []⟩]
    [⟨.num 1, "getinfo", []⟩] [⟨.num 3, "getinfo", []⟩]
    ⟨.num 2, "nosuchmethod", []⟩ rfl

/-! ### C7: named timers are replaced, never duplicated -/

theorem lookup_filter_ne_key {β : Type} (l : List (String × β)) (a : String) :
    (l.filter (fun q => q.1 ≠ a)).lookup a = none := by
  induction l with
  | nil => rfl
  | cons hd tl ih =>
    obtain ⟨k, v⟩ := hd
    by_cases hk : k = a
    · subst hk
      simpa using ih
    · simp only [List.filter_cons]
      have : (decide (¬(k, v).1 = a)) = true := by simpa using hk
      rw [this]
      simp only [if_true]
      rw [List.lookup_cons]
      have : (a == k) = false := by
        simp [(Ne.symm hk)]
      rw [this]
      exact ih

theorem filter_ne_key_idem {β : Type} (l : List (String × β)) (a : String) :
    ((l.filter (fun q => q.1 ≠ a)).filter (fun q => q.1 ≠ a)) =
      l.filter (fun q => q.1 ≠ a) := by
  rw [List.filter_filter]
  simp

theorem countP_key_filter_ne {β : Type} (l : List (String × β)) (a : String) :
    ((l.filter (fun q => q.1 ≠ a)).countP (fun q => q.1 == a)) = 0 := by
  rw [List.countP_eq_zero]
  intro q hq
  have := List.of_mem_filter hq
  simp at this ⊢
  exact this

/-- C7: after `runLater(name, cb1, d1)` then `runLater(name, cb2, d2)`
(with a timer driver registered, `cb1`, `cb2` fresh and distinct), the
old handle is destroyed before the new one is created: `name` resolves
to the `cb1` handle after the first call and to the `cb2` handle after
the second; `cb1` is no longer pending anywhere (it never fires), `cb2`
is pending exactly once (it fires exactly once), exactly one handle is
live under `name`, and per-name uniqueness of live handles is preserved
for every name. -/
theorem runLater_replaces_named_timer (st : RPCState) (name : String)
    (cb1 cb2 : Nat) (d1 d2 : Int)
    (hdrv : st.timerDrivers.isEmpty = false)
    (h1 : cb1 ∉ liveCallbacks st)
    (h2 : cb2 ∉ liveCallbacks st)
    (hne : cb1 ≠ cb2) :
    ((RPCRunLater st name cb1 d1).2.timers.lookup name = some ⟨cb1, d1⟩)
    ∧ (RPCRunLater (RPCRunLater st name cb1 d1).2 name cb2 d2).2.timers.lookup name
        = some ⟨cb2, d2⟩
    ∧ cb1 ∉ liveCallbacks (RPCRunLater (RPCRunLater st name cb1 d1).2 name cb2 d2).2
    ∧ (liveCallbacks
        (RPCRunLater (RPCRunLater st name cb1 d1).2 name cb2 d2).2).countP
          (fun c => c == cb2) = 1
    ∧ ((RPCRunLater (RPCRunLater st name cb1 d1).2 name cb2 d2).2.timers.countP
        (fun q => q.1 == name)) = 1
    ∧ (∀ n : String, st.timers.countP (fun q => q.1 == n) ≤ 1 →
        ((RPCRunLater (RPCRunLater st name cb1 d1).2 name cb2 d2).2.timers.countP
          (fun q => q.1 == n)) ≤ 1) := by
  have e1 : (RPCRunLater st name cb1 d1).2 =
      { st with timers := st.timers.filter (fun q => q.1 ≠ name)
          ++ [(name, ⟨cb1, d1⟩)] } := by
    unfold RPCRunLater
    rw [if_neg (by simp [hdrv])]
  have t1 : (RPCRunLater st name cb1 d1).2.timers =
      st.timers.filter (fun q => q.1 ≠ name) ++ [(name, ⟨cb1, d1⟩)] := by
    rw [e1]
  have e2 : (RPCRunLater (RPCRunLater st name cb1 d1).2 name cb2 d2).2 =
      { st with timers := st.timers.filter (fun q => q.1 ≠ name)
          ++ [(name, ⟨cb2, d2⟩)] } := by
    rw [e1]
    unfold RPCRunLater
    rw [if_neg (by simp [hdrv])]
    rw [List.filter_append, filter_ne_key_idem]
    simp
  have t2 : (RPCRunLater (RPCRunLater st name cb1 d1).2 name cb2 d2).2.timers =
      st.timers.filter (fun q => q.1 ≠ name) ++ [(name, ⟨cb2, d2⟩)] := by
    rw [e2]
  refine ⟨?_, ?_, ?_, ?_, ?_, ?_⟩
  · rw [t1, lookup_append_of_none _ _ _ (lookup_filter_ne_key _ _)]
    simp [List.lookup]
  · rw [t2, lookup_append_of_none _ _ _ (lookup_filter_ne_key _ _)]
    simp [List.lookup]
  · unfold liveCallbacks
    rw [t2]
    simp only [List.map_append, List.mem_append]
    rintro (hmem | hmem)
    · obtain ⟨q, hq, hqe⟩ := List.exists_of_mem_map hmem
      exact h1 (hqe ▸ List.mem_map_of_mem (fun p => p.2.callback)
        (List.mem_of_mem_filter hq))
    · simp at hmem
      exact hne hmem
  · unfold liveCallbacks
    rw [t2]
    rw [List.map_append, List.countP_append]
    have hz : (List.map (fun p => p.2.callback)
        (st.timers.filter (fun q => q.1 ≠ name))).countP (fun c => c == cb2) = 0 := by
      rw [List.countP_eq_zero]
      intro c hc hceq
      have hceq' : c = cb2 := by simpa using hceq
      subst hceq'
      obtain ⟨q, hq, hqe⟩ := List.exists_of_mem_map hc
      exact h2 (hqe ▸ List.mem_map_of_mem (fun p => p.2.callback)
        (List.mem_of_mem_filter hq))
    rw [hz]
    simp
  · rw [t2, List.countP_append, countP_key_filter_ne]
    simp
  · intro n hn
    rw [t2, List.countP_append]
    by_cases hna : n = name
    · subst hna
      rw [countP_key_filter_ne]
      simp
    · have hz : ([(name, (⟨cb2, d2⟩ : TimerHandle))] : List (String × TimerHandle)).countP
          (fun q => q.1 == n) = 0 := by
        simp [Ne.symm hna]
      rw [hz, Nat.add_zero]
      exact le_trans (List.Sublist.countP_le _ (List.filter_sublist _)) hn

/-- Witness for `runLater_replaces_named_timer`: callback 10 scheduled
under "x", then replaced by callback 20 under "x", with one driver
registered. -/
theorem runLater_replaces_named_timer_witness :
    (((RPCRunLater { initState with timerDrivers := ["http"] } "x" 10 5).2.timers.lookup "x"
        = some ⟨10, 5⟩)
    ∧ (RPCRunLater (RPCRunLater { initState with timerDrivers := ["http"] } "x" 10 5).2
        "x" 20 5).2.timers.lookup "x" = some ⟨20, 5⟩
    ∧ 10 ∉ liveCallbacks
        (RPCRunLater (RPCRunLater { initState with timerDrivers := ["http"] } "x" 10 5).2
          "x" 20 5).2
    ∧ (liveCallbacks
        (RPCRunLater (RPCRunLater { initState with timerDrivers := ["http"] } "x" 10 5).2
          "x" 20 5).2).countP (fun c => c == 20) = 1
    ∧ ((RPCRunLater (RPCRunLater { initState with timerDrivers := ["http"] } "x" 10 5).2
        "x" 20 5).2.timers.countP (fun q => q.1 == "x")) = 1
    ∧ (∀ n : String,
        ({ initState with timerDrivers := ["http"] } : RPCState).timers.countP
          (fun q => q.1 == n) ≤ 1 →
        ((RPCRunLater (RPCRunLater { initState with timerDrivers := ["http"] } "x" 10 5).2
          "x" 20 5).2.timers.countP (fun q => q.1 == n)) ≤ 1)) :=
  runLater_replaces_named_timer { initState with timerDrivers := ["http"] }
    "x" 10 20 5 5 rfl (by simp [liveCallbacks, initState])
    (by simp [liveCallbacks, initState]) (by decide)

/-! ### C8: hooks fire once, in attachment order, with the resolved descriptor -/

/-- C8: for every `execute` call that passes the warmup gate, resolves
its method, and passes the safe-mode check, the event trace is exactly
the pre-command firings — one per subscriber, in attachment order, each
receiving the resolved descriptor — followed by the single handler
invocation, followed by the post-command firings, one per subscriber in
attachment order with the same resolved descriptor. -/
theorem execute_fires_hooks_in_order (st : RPCState) (method : String)
    (params : List UniValue) (pcmd : CRPCCommand)
    (hw : st.warmup.inWarmup = false)
    (hl : CRPCTable.get st.table method = some pcmd)
    (hs : (st.safeModeRestricted && !pcmd.okSafeMode) = false) :
    (CRPCTable.execute st method params).2 =
      st.preSlots.map (fun s => Event.preCommand s pcmd)
        ++ [Event.handlerCall method]
        ++ st.postSlots.map (fun s => Event.postCommand s pcmd) :=
  congrArg Prod.snd (execute_resolved_shape st method params pcmd hw hl hs)

/-- Witness for `execute_fires_hooks_in_order`: on the ready state
(pre-command subscribers 1 then 2, post-command subscriber 3), `getinfo`
produces the trace pre-1, pre-2, handler, post-3, each carrying the
`getinfo` descriptor. -/
theorem execute_fires_hooks_in_order_witness :
    (CRPCTable.execute readyState "getinfo" []).2 =
      [Event.preCommand 1 getinfoCmd, Event.preCommand 2 getinfoCmd,
        Event.handlerCall "getinfo", Event.postCommand 3 getinfoCmd] :=
  execute_fires_hooks_in_order readyState "getinfo" [] getinfoCmd rfl rfl rfl

/-! ### C9: the warmup gate never reopens -/

/-- C9: the warmup state machine only ever moves from warming-up to
ready: after `SetRPCWarmupFinished`, any further sequence of
`SetRPCWarmupStatus` / `SetRPCWarmupFinished` calls leaves the gate
closed (never back to warming-up), and `execute` on a registered method
in such a state — safe-mode permitting — invokes its handler exactly
once per call. -/
theorem countP_handler_map_pre (m : String) (pcmd : CRPCCommand) (l : List Nat) :
    (l.map fun s => Event.preCommand s pcmd).countP (isHandlerCallOf m) = 0 := by
  rw [List.countP_eq_zero]
  intro e he
  obtain ⟨s, -, rfl⟩ := List.exists_of_mem_map he
  simp [isHandlerCallOf]

theorem countP_handler_map_post (m : String) (pcmd : CRPCCommand) (l : List Nat) :
    (l.map fun s => Event.postCommand s pcmd).countP (isHandlerCallOf m) = 0 := by
  rw [List.countP_eq_zero]
  intro e he
  obtain ⟨s, -, rfl⟩ := List.exists_of_mem_map he
  simp [isHandlerCallOf]

theorem warmup_finished_one_way (w : WarmupState) (ops : List WarmupOp)
    (st : RPCState) (method : String) (params : List UniValue)
    (pcmd : CRPCCommand)
    (hl : CRPCTable.get st.table method = some pcmd)
    (hs : (st.safeModeRestricted && !pcmd.okSafeMode) = false) :
    (ops.foldl applyWarmupOp (SetRPCWarmupFinished w)).inWarmup = false
    ∧ handlerCalls (CRPCTable.execute
        { st with warmup := ops.foldl applyWarmupOp (SetRPCWarmupFinished w) }
        method params).2 method = 1 := by
  have hmono : ∀ (l : List WarmupOp) (v : WarmupState), v.inWarmup = false →
      (l.foldl applyWarmupOp v).inWarmup = false := by
    intro l
    induction l with
    | nil => intro v hv; exact hv
    | cons o t ih =>
      intro v hv
      refine ih _ ?_
      cases o with
      | setStatus s => exact hv
      | setFinished => rfl
  have hw' : (ops.foldl applyWarmupOp (SetRPCWarmupFinished w)).inWarmup = false :=
    hmono ops _ rfl
  refine ⟨hw', ?_⟩
  rw [execute_resolved_shape
    { st with warmup := ops.foldl applyWarmupOp (SetRPCWarmupFinished w) }
    method params pcmd hw' hl hs]
  unfold handlerCalls
  rw [List.countP_append, List.countP_append,
    countP_handler_map_pre, countP_handler_map_post]
  simp [List.countP_cons, isHandlerCallOf]

/-- Witness for `warmup_finished_one_way`: finishing warmup, then a
status update and a second finish, leaves the gate open and `getinfo`
runs its handler exactly once. -/
theorem warmup_finished_one_way_witness :
    (([WarmupOp.setStatus "late", WarmupOp.setFinished].foldl applyWarmupOp
        (SetRPCWarmupFinished ⟨true, "Loading block index..."⟩)).inWarmup = false)
    ∧ handlerCalls (CRPCTable.execute
        { readyState with warmup :=
            ([WarmupOp.setStatus "late", WarmupOp.setFinished].foldl applyWarmupOp
              (SetRPCWarmupFinished ⟨true, "Loading block index..."⟩)) }
        "getinfo" []).2 "getinfo" = 1 :=
  warmup_finished_one_way ⟨true, "Loading block index..."⟩
    [WarmupOp.setStatus "late", WarmupOp.setFinished]
    readyState "getinfo" [] getinfoCmd rfl rfl

/-! ### C10: the read-side table operations never mutate the registry -/

/-- C10: `operator[]`, `help` and `execute` — the three const members of
`CRPCTable` — never modify the registry: for every dispatcher state and
every sequence of these read-side calls, the name-to-descriptor mapping
afterwards equals the mapping before. -/
theorem read_ops_preserve_table (st : RPCState) (ops : List ReadOp) :
    (applyReadOps st ops).table = st.table := by
  have h : applyReadOps st ops = st := by
    induction ops generalizing st with
    | nil => rfl
    | cons o t ih =>
      have ho : applyReadOp st o = st := by cases o <;> rfl
      calc applyReadOps st (o :: t) = applyReadOps (applyReadOp st o) t := rfl
        _ = applyReadOps st t := by rw [ho]
        _ = st := ih st
  rw [h]
